import Mathlib

/-!
Shallow embedding of the aggregation/comparison core of the IRPF × Judiciário
dashboard (src/app.py).

Numeric table cells are modelled as `Option ℚ`: `none` stands for a float NaN
(a pandas missing value), `some q` for an ordinary finite number.  pandas
column sums use the default skipna behaviour: NaN entries are skipped and an
empty or all-NaN column sums to 0.
-/

/-- Constant holding the fixed reference occupation label (OCUP_JUD in app.py). -/
def OCUP_JUD : String := "Membro do Poder Judiciário e de Tribunal de Contas"

/-- Constant with the minimum base year kept at load time (ANO_MIN in app.py). -/
def ANO_MIN : Int := 2021

/-- One record of the loaded table, with the column names used by app.py. -/
structure Row where
  ano_base : Int
  uf : String
  ocupacao_principal : String
  qtde_contribuintes : Option ℚ
  rend_total : Option ℚ
  rend_isentos_e_nao_tributaveis : Option ℚ
  imposto_pago : Option ℚ
  imposto_devido_total : Option ℚ
  rend_total_por_contrib : Option ℚ
  pct_isento : Option ℚ
  aliq_efetiva_paga : Option ℚ
deriving DecidableEq, Repr

/-- Embedding of safe_div (app.py lines 85-86): NaN when the denominator is
None, zero or NaN; division otherwise, with a NaN numerator propagating. -/
def safe_div (a b : Option ℚ) : Option ℚ :=
  match b with
  | none => none
  | some bq =>
      if bq = 0 then none
      else
        match a with
        | none => none
        | some aq => some (aq / bq)

/-- Embedding of a pandas column sum as used in agregados_ponderados:
NaN entries are skipped (skipna default), an all-NaN column sums to 0. -/
def sumCol (d : List Row) (f : Row → Option ℚ) : ℚ :=
  (d.filterMap f).sum

/-- The dictionary returned by agregados_ponderados (app.py lines 161-184). -/
structure Agg where
  tot_contrib : ℚ
  tot_rend : ℚ
  tot_isento : ℚ
  tot_pago : ℚ
  tot_devido : ℚ
  renda_media : Option ℚ
  pct_isento : Option ℚ
  aliq_paga : Option ℚ
  aliq_devida : Option ℚ
  isento_medio : Option ℚ
deriving DecidableEq, Repr

/-- Embedding of agregados_ponderados (app.py lines 161-184): plain column
sums, ratios of summed numerator over summed denominator via safe_div, and
isento_medio reconstructed as the product of the two weighted ratios. -/
def agregados_ponderados (df_part : List Row) : Agg :=
  let tot_contrib := sumCol df_part (·.qtde_contribuintes)
  let tot_rend := sumCol df_part (·.rend_total)
  let tot_isento := sumCol df_part (·.rend_isentos_e_nao_tributaveis)
  let tot_pago := sumCol df_part (·.imposto_pago)
  let tot_devido := sumCol df_part (·.imposto_devido_total)
  let renda_media := safe_div (some tot_rend) (some tot_contrib)
  let pct_isento := safe_div (some tot_isento) (some tot_rend)
  let aliq_paga := safe_div (some tot_pago) (some tot_rend)
  let aliq_devida := safe_div (some tot_devido) (some tot_rend)
  { tot_contrib := tot_contrib
    tot_rend := tot_rend
    tot_isento := tot_isento
    tot_pago := tot_pago
    tot_devido := tot_devido
    renda_media := renda_media
    pct_isento := pct_isento
    aliq_paga := aliq_paga
    aliq_devida := aliq_devida
    isento_medio :=
      match renda_media, pct_isento with
      | some r, some p => some (r * p)
      | _, _ => none }

/-- Embedding of ratio_renda (app.py line 189): safe_div of the reference
average income by the subject average income. -/
def ratio_renda (agg_jud agg_user : Agg) : Option ℚ :=
  safe_div agg_jud.renda_media agg_user.renda_media

/-- Embedding of dif_aliq_paga_pp (app.py line 190): the difference of the
effective paid rates times 100 when both are non-NaN, NaN otherwise. -/
def dif_aliq_paga_pp (agg_jud agg_user : Agg) : Option ℚ :=
  match agg_jud.aliq_paga, agg_user.aliq_paga with
  | some a, some b => some ((a - b) * 100)
  | _, _ => none

/-- Embedding of the region/year filter d (app.py line 143). -/
def filteredUF (rows : List Row) (uf_sel : String) (anos_sel : List Int) : List Row :=
  rows.filter (fun r => decide (r.uf = uf_sel ∧ r.ano_base ∈ anos_sel))

/-- Embedding of d_user (app.py line 145). -/
def d_user (rows : List Row) (uf_sel : String) (anos_sel : List Int)
    (ocup_sel : String) : List Row :=
  (filteredUF rows uf_sel anos_sel).filter (fun r => decide (r.ocupacao_principal = ocup_sel))

/-- Embedding of d_jud (app.py line 146). -/
def d_jud (rows : List Row) (uf_sel : String) (anos_sel : List Int) : List Row :=
  (filteredUF rows uf_sel anos_sel).filter (fun r => decide (r.ocupacao_principal = OCUP_JUD))

/-- Which side of the comparison had no data (the two st.warning/st.stop
branches of app.py lines 148-153). -/
inductive EmptySide where
  | subject
  | reference
deriving DecidableEq, Repr

/-- Embedding of the filter stage with its empty-subset checks (app.py lines
143-153): the subject subset is checked first, then the reference subset;
otherwise both subsets are returned. -/
def filterStage (rows : List Row) (uf_sel : String) (anos_sel : List Int)
    (ocup_sel : String) : Except EmptySide (List Row × List Row) :=
  let du := d_user rows uf_sel anos_sel ocup_sel
  let dj := d_jud rows uf_sel anos_sel
  if du.isEmpty then Except.error EmptySide.subject
  else if dj.isEmpty then Except.error EmptySide.reference
  else Except.ok (du, dj)

/-- Embedding of ocup_uf_user (app.py line 130): the selectable occupation
list, which removes only the exact reference label. -/
def ocup_uf_user (ocup_uf : List String) : List String :=
  ocup_uf.filter (fun o => decide (o ≠ OCUP_JUD))

/-- One row of the long-format series s (app.py lines 249-265), after the
column renames. -/
structure SeriesEntry where
  ano_base : Int
  grupo : String
  renda_media : Option ℚ
  pct_isento : Option ℚ
  aliq_paga : Option ℚ
deriving DecidableEq, Repr

/-- The sort-key order of sort_values on ano_base then grupo: year first,
group label (lexicographic string order) second. -/
def serLE (a b : SeriesEntry) : Prop :=
  a.ano_base < b.ano_base ∨ (a.ano_base = b.ano_base ∧ a.grupo ≤ b.grupo)

instance (a b : SeriesEntry) : Decidable (serLE a b) := by
  unfold serLE; infer_instance

instance : IsTotal SeriesEntry serLE :=
  ⟨by
    intro a b
    rcases lt_trichotomy a.ano_base b.ano_base with h | h | h
    · exact Or.inl (Or.inl h)
    · rcases le_total a.grupo b.grupo with hg | hg
      · exact Or.inl (Or.inr ⟨h, hg⟩)
      · exact Or.inr (Or.inr ⟨h.symm, hg⟩)
    · exact Or.inr (Or.inl h)⟩

instance : IsTrans SeriesEntry serLE :=
  ⟨by
    intro a b c hab hbc
    rcases hab with h1 | ⟨e1, g1⟩ <;> rcases hbc with h2 | ⟨e2, g2⟩
    · exact Or.inl (h1.trans h2)
    · exact Or.inl (lt_of_lt_of_le h1 (le_of_eq e2))
    · exact Or.inl (lt_of_le_of_lt (le_of_eq e1) h2)
    · exact Or.inr ⟨e1.trans e2, g1.trans g2⟩⟩

/-- Projection of one data row to one series row, with the given group label
(the rename plus grupo assignment of app.py lines 251-263). -/
def rowToEntry (grupo : String) (r : Row) : SeriesEntry :=
  { ano_base := r.ano_base
    grupo := grupo
    renda_media := r.rend_total_por_contrib
    pct_isento := r.pct_isento
    aliq_paga := r.aliq_efetiva_paga }

/-- Embedding of the series s (app.py lines 249-265): subject rows labelled
with the chosen occupation, reference rows labelled with the constant string
Judiciário, concatenated and sorted by year then group label. -/
def mkSeries (du dj : List Row) (ocup_sel : String) : List SeriesEntry :=
  List.insertionSort serLE
    (du.map (rowToEntry ocup_sel) ++ dj.map (rowToEntry "Judiciário"))

/-- One cell of the pivot table (app.py line 268): the mean of the group's
renda_media values for the year, skipping NaN, NaN when no value remains. -/
def pivotCell (s : List SeriesEntry) (y : Int) (g : String) : Option ℚ :=
  let vs := (s.filter (fun e => decide (e.ano_base = y ∧ e.grupo = g))).filterMap
    (·.renda_media)
  if vs.isEmpty then none else some (vs.sum / (vs.length : ℚ))

/-- Whether a group label appears as a pivot column: pivot_table with its
default dropna drops a column whose entries are all NaN, so a group is a
column exactly when it contributes at least one non-NaN value. -/
def colPresent (s : List SeriesEntry) (g : String) : Bool :=
  !((s.filter (fun e => decide (e.grupo = g))).filterMap (·.renda_media)).isEmpty

/-- The pivot index (app.py line 268): pivot_table aggregates renda_media
per (year, group) and its default dropna discards every aggregate row whose
values are all NaN before unstacking, so a year survives into the index
exactly when some series row for that year carries a non-NaN renda_media;
the surviving years, deduplicated and sorted ascending. -/
def pivotYears (s : List SeriesEntry) : List Int :=
  List.insertionSort (· ≤ ·)
    ((s.filter (fun e => decide (e.renda_media ≠ none))).map (·.ano_base)).dedup

/-- Result of the raw float division building vezes_mais (app.py line 270):
undef models NaN (either operand NaN, or 0/0); infty abstracts the IEEE
infinities produced by x/0 with x nonzero; val is an ordinary quotient. -/
inductive PivotVal where
  | undef
  | infty
  | val (q : ℚ)
deriving DecidableEq, Repr

/-- Float division with NaN and division-by-zero semantics, used only for
the pivot ratio column (a raw division, not safe_div). -/
def fdivP : Option ℚ → Option ℚ → PivotVal
  | some a, some b =>
      if b = 0 then (if a = 0 then PivotVal.undef else PivotVal.infty)
      else PivotVal.val (a / b)
  | _, _ => PivotVal.undef

/-- Embedding of the vezes_mais column (app.py lines 269-272): when both the
Judiciário column and the chosen occupation column exist in the pivot, the
per-year quotient of the two cells; otherwise NaN everywhere. -/
def vezes_mais (s : List SeriesEntry) (ocup_sel : String) (y : Int) : PivotVal :=
  if colPresent s "Judiciário" && colPresent s ocup_sel then
    fdivP (pivotCell s y "Judiciário") (pivotCell s y ocup_sel)
  else PivotVal.undef

/-- Everything one query computes (aggregates, comparison numbers, series
and per-year ratio pivot). -/
structure QueryResult where
  agg_user : Agg
  agg_jud : Agg
  razao_renda : Option ℚ
  dif_pp : Option ℚ
  series : List SeriesEntry
  razao_anual : List (Int × PivotVal)
deriving DecidableEq, Repr

/-- The whole per-query computation of app.py (filter stage, weighted
aggregates, comparison, series, ratio pivot), as one function of the loaded
table and the chosen region, years and occupation. -/
def runQuery (rows : List Row) (uf_sel : String) (anos_sel : List Int)
    (ocup_sel : String) : Except EmptySide QueryResult :=
  match filterStage rows uf_sel anos_sel ocup_sel with
  | Except.error e => Except.error e
  | Except.ok (du, dj) =>
      let au := agregados_ponderados du
      let aj := agregados_ponderados dj
      let s := mkSeries du dj ocup_sel
      Except.ok
        { agg_user := au
          agg_jud := aj
          razao_renda := ratio_renda aj au
          dif_pp := dif_aliq_paga_pp aj au
          series := s
          razao_anual := (pivotYears s).map (fun y => (y, vezes_mais s ocup_sel y)) }

/-- The unweighted arithmetic mean of the per-row precomputed
rend_total_por_contrib values of a subset (what the aggregator does NOT
compute), skipping NaN entries; NaN when no value remains. -/
def rowwiseMean (d : List Row) : Option ℚ :=
  let vs := d.filterMap (·.rend_total_por_contrib)
  if vs.isEmpty then none else some (vs.sum / (vs.length : ℚ))

/-! Sample rows used by the concrete witnesses below. -/

/-- Sample row: a generic subject-occupation bucket with consistent
precomputed per-row ratios. -/
def baseRow : Row :=
  { ano_base := 2021
    uf := "São Paulo"
    ocupacao_principal := "Professor"
    qtde_contribuintes := some 100
    rend_total := some 1000000
    rend_isentos_e_nao_tributaveis := some 200000
    imposto_pago := some 50000
    imposto_devido_total := some 60000
    rend_total_por_contrib := some 10000
    pct_isento := some (1 / 5)
    aliq_efetiva_paga := some (1 / 20) }

/-- Sample row: a reference-occupation bucket. -/
def judRow : Row :=
  { baseRow with
    ocupacao_principal := OCUP_JUD
    qtde_contribuintes := some 10
    rend_total := some 500000
    rend_isentos_e_nao_tributaveis := some 250000
    imposto_pago := some 100000
    imposto_devido_total := some 110000
    rend_total_por_contrib := some 50000
    pct_isento := some (1 / 2)
    aliq_efetiva_paga := some (1 / 5) }

/-- C1: for a non-empty filtered subset whose summed contributor count and
summed total income are nonzero, the aggregator computes every summary as a
ratio of column sums: average income per contributor is the summed income
over the summed contributor count, and the exempt share, effective paid rate
and effective owed rate are each the corresponding summed numerator over the
summed total income. -/
theorem c1_weighted_ratio_of_sums (d : List Row) (hne : d ≠ [])
    (hc : sumCol d (·.qtde_contribuintes) ≠ 0)
    (hr : sumCol d (·.rend_total) ≠ 0) :
    (agregados_ponderados d).renda_media
        = some (sumCol d (·.rend_total) / sumCol d (·.qtde_contribuintes)) ∧
    (agregados_ponderados d).pct_isento
        = some (sumCol d (·.rend_isentos_e_nao_tributaveis) / sumCol d (·.rend_total)) ∧
    (agregados_ponderados d).aliq_paga
        = some (sumCol d (·.imposto_pago) / sumCol d (·.rend_total)) ∧
    (agregados_ponderados d).aliq_devida
        = some (sumCol d (·.imposto_devido_total) / sumCol d (·.rend_total)) := by
  refine ⟨?_, ?_, ?_, ?_⟩ <;> simp [agregados_ponderados, safe_div, hc, hr]

/-- Witness for C1 at a concrete two-row subset. -/
theorem c1_weighted_ratio_of_sums_witness :
    ([baseRow, judRow] : List Row) ≠ [] ∧
    sumCol [baseRow, judRow] (·.qtde_contribuintes) ≠ 0 ∧
    sumCol [baseRow, judRow] (·.rend_total) ≠ 0 ∧
    (agregados_ponderados [baseRow, judRow]).renda_media
      = some (sumCol [baseRow, judRow] (·.rend_total)
          / sumCol [baseRow, judRow] (·.qtde_contribuintes)) :=
  ⟨by decide,
   by norm_num [sumCol, List.filterMap_cons, baseRow, judRow],
   by norm_num [sumCol, List.filterMap_cons, baseRow, judRow],
   (c1_weighted_ratio_of_sums [baseRow, judRow] (by decide)
     (by norm_num [sumCol, List.filterMap_cons, baseRow, judRow])
     (by norm_num [sumCol, List.filterMap_cons, baseRow, judRow])).1⟩

/-- C2: a zero summed contributor count makes the average income per
contributor NaN, and the income ratio built from that subject average is NaN
as well; in general safe_div returns NaN (not zero, not an error) whenever
its denominator is None, NaN or zero. -/
theorem c2_zero_denominator_undefined (du dj : List Row)
    (h : sumCol du (·.qtde_contribuintes) = 0) :
    (agregados_ponderados du).renda_media = none ∧
    ratio_renda (agregados_ponderados dj) (agregados_ponderados du) = none ∧
    (∀ a : Option ℚ, safe_div a none = none) ∧
    (∀ a : Option ℚ, safe_div a (some 0) = none) := by
  have h1 : (agregados_ponderados du).renda_media = none := by
    simp [agregados_ponderados, safe_div, h]
  refine ⟨h1, ?_, fun a => rfl, fun a => by simp [safe_div]⟩
  rw [ratio_renda, h1]
  rfl

/-- Witness for C2 at a concrete subset whose contributor count sums to 0. -/
theorem c2_zero_denominator_undefined_witness :
    sumCol [{ baseRow with qtde_contribuintes := some 0 }] (·.qtde_contribuintes) = 0 ∧
    (agregados_ponderados [{ baseRow with qtde_contribuintes := some 0 }]).renda_media
      = none :=
  ⟨by norm_num [sumCol, List.filterMap_cons, baseRow],
    (c2_zero_denominator_undefined [{ baseRow with qtde_contribuintes := some 0 }]
      [judRow] (by norm_num [sumCol, List.filterMap_cons, baseRow])).1⟩

/-- C4: the comparator returns the reference average income divided by the
subject average income (NaN when the subject average is NaN or zero) and the
difference of effective paid rates times 100 (NaN when either rate is NaN). -/
theorem c4_comparator_formulas (aj au : Agg) :
    (∀ rj ru : ℚ, aj.renda_media = some rj → au.renda_media = some ru → ru ≠ 0 →
        ratio_renda aj au = some (rj / ru)) ∧
    (au.renda_media = none → ratio_renda aj au = none) ∧
    (au.renda_media = some 0 → ratio_renda aj au = none) ∧
    (∀ pj pu : ℚ, aj.aliq_paga = some pj → au.aliq_paga = some pu →
        dif_aliq_paga_pp aj au = some ((pj - pu) * 100)) ∧
    (aj.aliq_paga = none ∨ au.aliq_paga = none → dif_aliq_paga_pp aj au = none) := by
  refine ⟨?_, ?_, ?_, ?_, ?_⟩
  · intro rj ru hj hu hne
    rw [ratio_renda, hj, hu]
    simp [safe_div, hne]
  · intro hu; rw [ratio_renda, hu]; rfl
  · intro hu; rw [ratio_renda, hu]; simp [safe_div]
  · intro pj pu hj hu
    rw [dif_aliq_paga_pp, hj, hu]
  · rintro (hj | hu)
    · rw [dif_aliq_paga_pp, hj]
    · rw [dif_aliq_paga_pp, hu]
      cases aj.aliq_paga <;> rfl

/-- Witness for C4 at the concrete one-row aggregates of the sample data. -/
theorem c4_comparator_formulas_witness :
    (agregados_ponderados [judRow]).renda_media = some 50000 ∧
    (agregados_ponderados [baseRow]).renda_media = some 10000 ∧
    ratio_renda (agregados_ponderados [judRow]) (agregados_ponderados [baseRow])
      = some ((50000 : ℚ) / 10000) := by
  have h1 : (agregados_ponderados [judRow]).renda_media = some 50000 := by
    norm_num [agregados_ponderados, sumCol, List.filterMap_cons, judRow, baseRow, safe_div]
  have h2 : (agregados_ponderados [baseRow]).renda_media = some 10000 := by
    norm_num [agregados_ponderados, sumCol, List.filterMap_cons, baseRow, safe_div]
  exact ⟨h1, h2,
    (c4_comparator_formulas (agregados_ponderados [judRow])
      (agregados_ponderados [baseRow])).1 50000 10000 h1 h2 (by norm_num)⟩

/-- C6 counterexample: a subset holding a row whose rend_total is NaN, where
the column sum nevertheless equals the sum with that row dropped and the
weighted average income stays defined — the missing value is silently
skipped by the pandas sum, not propagated as undefined. -/
theorem c6_counterexample :
    ({ baseRow with rend_total := none } : Row).rend_total = none ∧
    sumCol [{ baseRow with rend_total := none }, judRow] (·.rend_total)
      = sumCol [judRow] (·.rend_total) ∧
    (agregados_ponderados [{ baseRow with rend_total := none }, judRow]).renda_media
      ≠ none := by
  refine ⟨rfl, by norm_num [sumCol, List.filterMap_cons], ?_⟩
  have h : (agregados_ponderados [{ baseRow with rend_total := none }, judRow]).renda_media
      = some ((50000 : ℚ) / 11) := by
    norm_num [agregados_ponderados, sumCol, List.filterMap_cons, baseRow, judRow, safe_div]
  rw [h]
  simp

/-- C6 (amended): missing column values do not propagate through the
aggregate sums: a pandas column sum skips NaN entries, so it equals the sum
of the present values — equivalently, each missing value is treated as zero
in the sum. -/
theorem c6_missing_values_skipped (d : List Row) (f : Row → Option ℚ) :
    sumCol d f = (d.map (fun r => (f r).getD 0)).sum := by
  induction d with
  | nil => rfl
  | cons r t ih =>
      simp only [sumCol, List.filterMap_cons, List.map_cons, List.sum_cons] at *
      cases h : f r <;> simp [h, ih]

/-- C3: the filter stage signals which side was empty (subject checked
first, then reference) and otherwise returns two non-empty subsets in which
every row matches the region, is in the requested year set, and carries the
respective occupation label. -/
theorem c3_filter_stage_contract (rows : List Row) (uf_sel : String)
    (anos_sel : List Int) (ocup_sel : String) :
    (d_user rows uf_sel anos_sel ocup_sel = [] →
        filterStage rows uf_sel anos_sel ocup_sel = Except.error EmptySide.subject) ∧
    (d_user rows uf_sel anos_sel ocup_sel ≠ [] →
        d_jud rows uf_sel anos_sel = [] →
        filterStage rows uf_sel anos_sel ocup_sel = Except.error EmptySide.reference) ∧
    (∀ du dj : List Row, filterStage rows uf_sel anos_sel ocup_sel = Except.ok (du, dj) →
        du ≠ [] ∧ dj ≠ [] ∧
        (∀ r ∈ du, r.uf = uf_sel ∧ r.ano_base ∈ anos_sel ∧
            r.ocupacao_principal = ocup_sel) ∧
        (∀ r ∈ dj, r.uf = uf_sel ∧ r.ano_base ∈ anos_sel ∧
            r.ocupacao_principal = OCUP_JUD)) := by
  refine ⟨?_, ?_, ?_⟩
  · intro h
    simp [filterStage, h]
  · intro h1 h2
    simp [filterStage, h1, h2]
  · intro du dj h
    unfold filterStage at h
    by_cases h1 : (d_user rows uf_sel anos_sel ocup_sel).isEmpty <;>
      by_cases h2 : (d_jud rows uf_sel anos_sel).isEmpty <;>
      simp [h1, h2] at h
    obtain ⟨e1, e2⟩ := h
    subst e1; subst e2
    replace h1 : d_user rows uf_sel anos_sel ocup_sel ≠ [] := by simpa using h1
    replace h2 : d_jud rows uf_sel anos_sel ≠ [] := by simpa using h2
    refine ⟨h1, h2, ?_, ?_⟩
    · intro r hr
      unfold d_user filteredUF at hr
      simp only [List.mem_filter, decide_eq_true_eq] at hr
      exact ⟨hr.1.2.1, hr.1.2.2, hr.2⟩
    · intro r hr
      unfold d_jud filteredUF at hr
      simp only [List.mem_filter, decide_eq_true_eq] at hr
      exact ⟨hr.1.2.1, hr.1.2.2, hr.2⟩

/-- Witness for C3 at a concrete table where both subsets are non-empty. -/
theorem c3_filter_stage_contract_witness :
    ([baseRow] : List Row) ≠ [] ∧ ([judRow] : List Row) ≠ [] ∧
    (∀ r ∈ ([baseRow] : List Row), r.uf = "São Paulo" ∧ r.ano_base ∈ [(2021 : Int)] ∧
        r.ocupacao_principal = "Professor") := by
  have h := (c3_filter_stage_contract [baseRow, judRow] "São Paulo" [2021] "Professor").2.2
    [baseRow] [judRow] rfl
  exact ⟨h.1, h.2.1, h.2.2.1⟩

/-- C8: the aggregate's average exempt amount is the product of the weighted
average income per contributor and the weighted exempt share, NaN when
either factor is NaN; and this reconstruction is not the direct quotient of
summed exempt income by summed contributors (the two disagree when total
income sums to zero). -/
theorem c8_isento_medio_product (d : List Row) (hne : d ≠ []) :
    (∀ r p : ℚ, (agregados_ponderados d).renda_media = some r →
        (agregados_ponderados d).pct_isento = some p →
        (agregados_ponderados d).isento_medio = some (r * p)) ∧
    ((agregados_ponderados d).renda_media = none →
        (agregados_ponderados d).isento_medio = none) ∧
    ((agregados_ponderados d).pct_isento = none →
        (agregados_ponderados d).isento_medio = none) ∧
    (∃ d2 : List Row, d2 ≠ [] ∧
        (agregados_ponderados d2).isento_medio ≠
          safe_div (some (sumCol d2 (·.rend_isentos_e_nao_tributaveis)))
                   (some (sumCol d2 (·.qtde_contribuintes)))) := by
  have hm : (agregados_ponderados d).isento_medio =
      match (agregados_ponderados d).renda_media, (agregados_ponderados d).pct_isento with
      | some r, some p => some (r * p)
      | _, _ => none := rfl
  refine ⟨?_, ?_, ?_, ?_⟩
  · intro r p h1 h2
    rw [hm, h1, h2]
  · intro h1
    rw [hm, h1]
  · intro h2
    rw [hm, h2]
    cases h1 : (agregados_ponderados d).renda_media <;> rfl
  · refine ⟨[{ baseRow with rend_total := some 0 }], by decide, ?_⟩
    have hL : (agregados_ponderados [{ baseRow with rend_total := some 0 }]).isento_medio
        = none := by
      norm_num [agregados_ponderados, sumCol, List.filterMap_cons, baseRow, safe_div]
    have hR : safe_div
        (some (sumCol [{ baseRow with rend_total := some 0 }]
          (·.rend_isentos_e_nao_tributaveis)))
        (some (sumCol [{ baseRow with rend_total := some 0 }] (·.qtde_contribuintes)))
        = some 2000 := by
      norm_num [sumCol, List.filterMap_cons, baseRow, safe_div]
    rw [hL, hR]
    simp

/-- Witness for C8 at a concrete one-row subset with defined factors. -/
theorem c8_isento_medio_product_witness :
    ([baseRow] : List Row) ≠ [] ∧
    (agregados_ponderados [baseRow]).isento_medio = some ((10000 : ℚ) * (1 / 5)) := by
  have h1 : (agregados_ponderados [baseRow]).renda_media = some 10000 := by
    norm_num [agregados_ponderados, sumCol, List.filterMap_cons, baseRow, safe_div]
  have h2 : (agregados_ponderados [baseRow]).pct_isento = some (1 / 5) := by
    norm_num [agregados_ponderados, sumCol, List.filterMap_cons, baseRow, safe_div]
  exact ⟨by decide, (c8_isento_medio_product [baseRow] (by decide)).1 10000 (1 / 5) h1 h2⟩

/-- Sample rows with unequal contributor counts but equal per-row income per
contributor. -/
def flatRowA : Row :=
  { baseRow with
    qtde_contribuintes := some 1
    rend_total := some 1
    rend_total_por_contrib := some 1 }

/-- Sample row forming, with flatRowA, a subset in which contributor counts
vary but the weighted and unweighted means coincide. -/
def flatRowB : Row :=
  { baseRow with
    qtde_contribuintes := some 2
    rend_total := some 2
    rend_total_por_contrib := some 1 }

/-- C7 counterexample: a two-row subset whose contributor counts vary (1 and
2) while the weighted average income equals the unweighted mean of the
per-row income-per-contributor values (both rows have ratio 1), refuting the
claim that they differ whenever contributor counts vary. -/
theorem c7_counterexample :
    flatRowA.qtde_contribuintes ≠ flatRowB.qtde_contribuintes ∧
    (agregados_ponderados [flatRowA, flatRowB]).renda_media
      = rowwiseMean [flatRowA, flatRowB] := by
  constructor
  · simp [flatRowA, flatRowB, baseRow]
  · have hL : (agregados_ponderados [flatRowA, flatRowB]).renda_media = some 1 := by
      norm_num [agregados_ponderados, sumCol, List.filterMap_cons, flatRowA, flatRowB,
        baseRow, safe_div]
    have hR : rowwiseMean [flatRowA, flatRowB] = some 1 := by
      norm_num [rowwiseMean, List.filterMap_cons, flatRowA, flatRowB, baseRow]
    rw [hL, hR]

/-- C7 (amended): for a two-row subset with positive, unequal contributor
counts, consistent per-row ratio columns, and unequal per-row
income-per-contributor ratios, the weighted average income differs from the
unweighted mean of the per-row ratios. -/
theorem c7_two_row_weighted_differs (r1 r2 : Row) (c1 c2 i1 i2 : ℚ)
    (hq1 : r1.qtde_contribuintes = some c1) (hq2 : r2.qtde_contribuintes = some c2)
    (hi1 : r1.rend_total = some i1) (hi2 : r2.rend_total = some i2)
    (hp1 : r1.rend_total_por_contrib = some (i1 / c1))
    (hp2 : r2.rend_total_por_contrib = some (i2 / c2))
    (hc1 : 0 < c1) (hc2 : 0 < c2) (hcc : c1 ≠ c2) (hrr : i1 / c1 ≠ i2 / c2) :
    (agregados_ponderados [r1, r2]).renda_media ≠ rowwiseMean [r1, r2] := by
  have hc1' : c1 ≠ 0 := ne_of_gt hc1
  have hc2' : c2 ≠ 0 := ne_of_gt hc2
  have hsum : c1 + c2 ≠ 0 := by positivity
  have hL : (agregados_ponderados [r1, r2]).renda_media
      = some ((i1 + i2) / (c1 + c2)) := by
    simp [agregados_ponderados, sumCol, List.filterMap_cons, hq1, hq2, hi1, hi2,
      safe_div, hsum]
  have hR : rowwiseMean [r1, r2] = some ((i1 / c1 + i2 / c2) / 2) := by
    simp [rowwiseMean, List.filterMap_cons, hp1, hp2]
  rw [hL, hR]
  intro hsome
  have heq : (i1 + i2) / (c1 + c2) = (i1 / c1 + i2 / c2) / 2 := Option.some.inj hsome
  field_simp at heq
  have key : (c1 - c2) * (i1 * c2 - i2 * c1) = 0 := by linear_combination heq
  rcases mul_eq_zero.mp key with h | h
  · exact hcc (sub_eq_zero.mp h)
  · exact hrr ((div_eq_div_iff hc1' hc2').mpr (sub_eq_zero.mp h))

/-- Membership in the built series is membership in the two labelled
projections, since sorting only permutes. -/
theorem mem_mkSeries_iff {du dj : List Row} {o : String} {e : SeriesEntry} :
    e ∈ mkSeries du dj o ↔
      e ∈ du.map (rowToEntry o) ++ dj.map (rowToEntry "Judiciário") := by
  unfold mkSeries
  exact (List.perm_insertionSort serLE _).mem_iff

/-- Membership in the pivot index: a year is kept exactly when some series
row for it has a non-NaN renda_media (the others fall to the dropna of the
all-NaN aggregate rows). -/
theorem mem_pivotYears_iff {s : List SeriesEntry} {z : Int} :
    z ∈ pivotYears s ↔ ∃ e ∈ s, e.ano_base = z ∧ e.renda_media ≠ none := by
  unfold pivotYears
  rw [(List.perm_insertionSort _ _).mem_iff, List.mem_dedup]
  constructor
  · intro hz
    obtain ⟨e, he, hez⟩ := List.mem_map.mp hz
    rw [List.mem_filter] at he
    exact ⟨e, he.1, hez, by simpa using he.2⟩
  · rintro ⟨e, he, hez, hdef⟩
    exact List.mem_map.mpr ⟨e, List.mem_filter.mpr ⟨he, by simpa using hdef⟩, hez⟩

/-- Sample reference row for the year 2023 whose per-row income per
contributor is NaN. -/
def nanJud2023 : Row :=
  { judRow with
    ano_base := 2023
    rend_total_por_contrib := none }

/-- C5 counterexample: the year 2023 appears in the combined series (the
reference subset has a row for it) but its only renda_media value is NaN, so
pivot_table's dropna silently removes 2023 from the pivot index — refuting
the claim that the pivot holds one entry per year of the series and that no
year is silently omitted. -/
theorem c5_counterexample :
    (2023 : Int) ∈ (mkSeries [baseRow] [judRow, nanJud2023] "Professor").map
      (·.ano_base) ∧
    (2023 : Int) ∉ pivotYears (mkSeries [baseRow] [judRow, nanJud2023] "Professor") := by
  constructor
  · exact List.mem_map.mpr ⟨rowToEntry "Judiciário" nanJud2023,
      mem_mkSeries_iff.mpr (List.mem_append.mpr (Or.inr
        (List.mem_map.mpr ⟨nanJud2023, by simp, rfl⟩))), rfl⟩
  · rw [mem_pivotYears_iff]
    rintro ⟨e, he, hez, hdef⟩
    rcases List.mem_append.mp (mem_mkSeries_iff.mp he) with h1 | h1
    · obtain ⟨r, hrr, rfl⟩ := List.mem_map.mp h1
      rw [List.mem_singleton] at hrr
      subst hrr
      exact absurd hez (by decide)
    · obtain ⟨r, hrr, rfl⟩ := List.mem_map.mp h1
      rcases List.mem_cons.mp hrr with h2 | h2
      · subst h2
        exact absurd hez (by decide)
      · rw [List.mem_singleton] at h2
        subst h2
        exact hdef rfl

/-- C5 (amended): the pivot index keeps exactly the years with at least one
non-NaN renda_media in the series (pandas' dropna silently removes all-NaN
years); when a year is covered by the reference subset with a non-NaN
per-row income value but the subject subset has no row for it, the year is
kept and its pivot ratio is the explicit NaN marker, with nothing raised. -/
theorem c5_pivot_year_gap (du dj : List Row) (ocup_sel : String) (y : Int) (r : Row)
    (hocup : ocup_sel ≠ "Judiciário")
    (hr : r ∈ dj) (hry : r.ano_base = y)
    (hrm : r.rend_total_por_contrib ≠ none)
    (hyn : y ∉ du.map (·.ano_base)) :
    y ∈ pivotYears (mkSeries du dj ocup_sel) ∧
    vezes_mais (mkSeries du dj ocup_sel) ocup_sel y = PivotVal.undef ∧
    (∀ z : Int, z ∈ pivotYears (mkSeries du dj ocup_sel) ↔
        ∃ e ∈ mkSeries du dj ocup_sel, e.ano_base = z ∧ e.renda_media ≠ none) := by
  have hys : y ∈ pivotYears (mkSeries du dj ocup_sel) :=
    mem_pivotYears_iff.mpr ⟨rowToEntry "Judiciário" r,
      mem_mkSeries_iff.mpr (List.mem_append.mpr
        (Or.inr (List.mem_map.mpr ⟨r, hr, rfl⟩))), hry, hrm⟩
  have hcell : pivotCell (mkSeries du dj ocup_sel) y ocup_sel = none := by
    have hfil : (mkSeries du dj ocup_sel).filter
        (fun e => decide (e.ano_base = y ∧ e.grupo = ocup_sel)) = [] := by
      rw [List.filter_eq_nil_iff]
      intro e he
      rcases List.mem_append.mp (mem_mkSeries_iff.mp he) with h | h
      · obtain ⟨r, hr, rfl⟩ := List.mem_map.mp h
        simp only [rowToEntry, decide_eq_true_eq, not_and]
        intro hano _
        exact hyn (List.mem_map.mpr ⟨r, hr, hano⟩)
      · obtain ⟨r, hr, rfl⟩ := List.mem_map.mp h
        simp only [rowToEntry, decide_eq_true_eq, not_and]
        intro _ hg
        exact hocup hg.symm
    unfold pivotCell
    rw [hfil]
    rfl
  refine ⟨hys, ?_, fun z => mem_pivotYears_iff⟩
  unfold vezes_mais
  split
  · rw [hcell]
    cases pivotCell (mkSeries du dj ocup_sel) y "Judiciário" <;> rfl
  · rfl

/-- Sample reference row for the year 2023 (a year with no subject data),
with a defined per-row income per contributor. -/
def jud2023 : Row := { judRow with ano_base := 2023 }

/-- Witness for C5: the reference subset covers 2023 with a non-NaN per-row
income value, the subject subset does not cover 2023, the pivot index keeps
2023 and its ratio is the NaN marker. -/
theorem c5_pivot_year_gap_witness :
    ("Professor" : String) ≠ "Judiciário" ∧
    jud2023 ∈ ([judRow, jud2023] : List Row) ∧
    jud2023.ano_base = 2023 ∧
    jud2023.rend_total_por_contrib ≠ none ∧
    (2023 : Int) ∉ ([baseRow] : List Row).map (·.ano_base) ∧
    (2023 : Int) ∈ pivotYears (mkSeries [baseRow] [judRow, jud2023] "Professor") ∧
    vezes_mais (mkSeries [baseRow] [judRow, jud2023] "Professor") "Professor" 2023
      = PivotVal.undef := by
  have h := c5_pivot_year_gap [baseRow] [judRow, jud2023] "Professor" 2023 jud2023
    (by decide) (by simp) rfl (by simp [jud2023, judRow, baseRow]) (by decide)
  exact ⟨by decide, by simp, rfl, by simp [jud2023, judRow, baseRow], by decide,
    h.1, h.2.1⟩

/-- C9: one query is a pure function of the loaded table and the chosen
filters — running it twice gives identical results — and the series it
returns is ordered by the explicit sort keys, year then group label. -/
theorem c9_deterministic_and_sorted (rows : List Row) (uf_sel : String)
    (anos_sel : List Int) (ocup_sel : String) :
    runQuery rows uf_sel anos_sel ocup_sel = runQuery rows uf_sel anos_sel ocup_sel ∧
    (∀ res : QueryResult, runQuery rows uf_sel anos_sel ocup_sel = Except.ok res →
        res.series.Sorted serLE) := by
  refine ⟨rfl, ?_⟩
  intro res h
  unfold runQuery at h
  split at h
  · exact absurd h (by simp)
  · injection h with h2
    rw [← h2]
    unfold mkSeries
    exact List.sorted_insertionSort serLE _

/-- The concrete result of the witness query on the two sample rows. -/
def sampleResult : QueryResult :=
  { agg_user :=
      { tot_contrib := 100
        tot_rend := 1000000
        tot_isento := 200000
        tot_pago := 50000
        tot_devido := 60000
        renda_media := some 10000
        pct_isento := some (1 / 5)
        aliq_paga := some (1 / 20)
        aliq_devida := some (3 / 50)
        isento_medio := some 2000 }
    agg_jud :=
      { tot_contrib := 10
        tot_rend := 500000
        tot_isento := 250000
        tot_pago := 100000
        tot_devido := 110000
        renda_media := some 50000
        pct_isento := some (1 / 2)
        aliq_paga := some (1 / 5)
        aliq_devida := some (11 / 50)
        isento_medio := some 25000 }
    razao_renda := some 5
    dif_pp := some 15
    series :=
      [{ ano_base := 2021, grupo := "Judiciário", renda_media := some 50000,
         pct_isento := some (1 / 2), aliq_paga := some (1 / 5) },
       { ano_base := 2021, grupo := "Professor", renda_media := some 10000,
         pct_isento := some (1 / 5), aliq_paga := some (1 / 20) }]
    razao_anual := [(2021, PivotVal.val 5)] }

/-- Witness for C9: the witness query evaluates to the expected concrete
result and its series is sorted by the year-then-group keys. -/
theorem c9_deterministic_and_sorted_witness :
    runQuery [baseRow, judRow] "São Paulo" [2021] "Professor" = Except.ok sampleResult ∧
    sampleResult.series.Sorted serLE := by
  have hEq : runQuery [baseRow, judRow] "São Paulo" [2021] "Professor"
      = Except.ok sampleResult := by
    norm_num +decide [runQuery, filterStage, d_user, d_jud, filteredUF,
      agregados_ponderados, sumCol, safe_div, ratio_renda, dif_aliq_paga_pp, mkSeries,
      List.insertionSort, List.orderedInsert, serLE, String.le_iff_toList_le, rowToEntry,
      pivotYears, vezes_mais, colPresent, pivotCell, fdivP, List.filterMap_cons,
      baseRow, judRow, OCUP_JUD, sampleResult]
  exact ⟨hEq,
    (c9_deterministic_and_sorted [baseRow, judRow] "São Paulo" [2021] "Professor").2
      sampleResult hEq⟩

/-- C10: when the chosen subject occupation is the literal string Judiciário
(which the selectable list does not exclude, as it only removes the full
reference label), every series row gets the same group label, so any defined
per-year pivot ratio is the merged column divided by itself and equals 1. -/
theorem c10_judiciario_label_collision (du dj : List Row) (y : Int) (q : ℚ)
    (h : vezes_mais (mkSeries du dj "Judiciário") "Judiciário" y = PivotVal.val q) :
    q = 1 ∧
    (∀ e ∈ mkSeries du dj "Judiciário", e.grupo = "Judiciário") ∧
    (∀ l : List String, "Judiciário" ∈ l → "Judiciário" ∈ ocup_uf_user l) := by
  refine ⟨?_, ?_, ?_⟩
  · unfold vezes_mais at h
    split at h
    · cases hc : pivotCell (mkSeries du dj "Judiciário") y "Judiciário" with
      | none => rw [hc] at h; cases h
      | some a =>
          rw [hc] at h
          by_cases ha : a = 0
          · rw [ha] at h
            simp [fdivP] at h
          · simp only [fdivP, if_neg ha] at h
            injection h with h2
            rw [← h2]
            exact div_self ha
    · cases h
  · intro e he
    rcases List.mem_append.mp (mem_mkSeries_iff.mp he) with h1 | h1 <;>
      · obtain ⟨r, _, rfl⟩ := List.mem_map.mp h1
        rfl
  · intro l hl
    unfold ocup_uf_user
    rw [List.mem_filter]
    exact ⟨hl, by decide⟩

/-- Sample subject row whose occupation is the literal string Judiciário. -/
def colRowU : Row :=
  { baseRow with
    ocupacao_principal := "Judiciário"
    rend_total_por_contrib := some 2 }

/-- Sample reference row used in the label-collision witness. -/
def colRowJ : Row := { judRow with rend_total_por_contrib := some 4 }

/-- Witness for C10: with subject label Judiciário, the merged pivot column
is divided by itself and the 2021 ratio evaluates to 1. -/
theorem c10_judiciario_label_collision_witness :
    vezes_mais (mkSeries [colRowU] [colRowJ] "Judiciário") "Judiciário" 2021
      = PivotVal.val 1 ∧ (1 : ℚ) = 1 := by
  have h : vezes_mais (mkSeries [colRowU] [colRowJ] "Judiciário") "Judiciário" 2021
      = PivotVal.val 1 := by
    norm_num +decide [vezes_mais, mkSeries, List.insertionSort, List.orderedInsert,
      serLE, String.le_iff_toList_le, rowToEntry, colPresent, pivotCell, fdivP,
      List.filterMap_cons, colRowU, colRowJ, baseRow, judRow]
  exact ⟨h, (c10_judiciario_label_collision [colRowU] [colRowJ] 2021 1 h).1⟩

/-- Sample row with a per-row income per contributor different from
flatRowA's, used to witness the amended weighting claim. -/
def steepRowB : Row :=
  { baseRow with
    qtde_contribuintes := some 2
    rend_total := some 6
    rend_total_por_contrib := some 3 }

/-- Witness for the amended C7 at contributor counts 1 and 2 with per-row
ratios 1 and 3: the weighted mean 7/3 differs from the unweighted mean 2. -/
theorem c7_two_row_weighted_differs_witness :
    flatRowA.qtde_contribuintes = some 1 ∧
    steepRowB.qtde_contribuintes = some 2 ∧
    (agregados_ponderados [flatRowA, steepRowB]).renda_media
      ≠ rowwiseMean [flatRowA, steepRowB] :=
  ⟨rfl, rfl,
    c7_two_row_weighted_differs flatRowA steepRowB 1 2 1 6 rfl rfl rfl rfl
      (by norm_num [flatRowA, baseRow]) (by norm_num [steepRowB, baseRow])
      (by norm_num) (by norm_num) (by norm_num) (by norm_num)⟩
